import Mathlib

/-!
Shallow embedding of the planning pipeline and forecasting/allocation engine of
the AI_FinancialAdvisor repository (ai_core/investment_advisor.py,
ai_core/financial_forecaster.py, ai_core/expense_tracker.py,
ai_core/financial_advisor_graph.py), with theorems settling the frozen claims.

Modelling conventions:
- Python floats are idealised as rationals.  The two library functions whose
  values are irrational on rationals, float sqrt (numpy sqrt and pandas std)
  and float pow, are passed in as explicit parameters `fsqrt`, `fpow`; every
  claim proved here holds for every choice of these parameters, and witnesses
  instantiate them with concrete rational functions.
- Float NaN (produced by pandas rolling means over windows larger than the
  series) is modelled as `none` in `Option ℚ`, with NaN-propagating arithmetic
  and the Python two-argument `max(0, x)` semantics (`max(0, nan) = 0`).
- `round(x, n)` is Python round-half-to-even on the idealised rational.
- ISO timestamps are idealised as integer day numbers; the Python string
  comparison `date >= (now - 30 days)` on ISO strings is order-isomorphic to
  the integer comparison used here.
-/

set_option allowUnsafeReducibility true in
attribute [semireducible] Rat.add Rat.mul Rat.inv Rat.sub Rat.ofScientific

/-- Round-half-to-even of a rational to an integer, as Python round does. -/
def roundHalfEven (q : ℚ) : ℤ :=
  let n : ℤ := ⌊q⌋
  let r : ℚ := q - n
  if r < 1/2 then n
  else if 1/2 < r then n + 1
  else if Even n then n else n + 1

/-- Python round(x, 2) on the rational idealisation of a float. -/
def round2 (q : ℚ) : ℚ := (roundHalfEven (q * 100) : ℚ) / 100

/-- Python round(x, 1) on the rational idealisation of a float. -/
def round1 (q : ℚ) : ℚ := (roundHalfEven (q * 10) : ℚ) / 10

/-- Arithmetic mean of a list of rationals (pandas Series.mean). -/
def qMean (xs : List ℚ) : ℚ := xs.sum / xs.length

/-- Python max(0, x) where x may be NaN: max starts from 0 and replaces it
only when the comparison x > 0 is true, which is false for NaN. -/
def pyMax0 : Option ℚ → ℚ
  | none => 0
  | some x => max 0 x

theorem roundHalfEven_nonneg {q : ℚ} (h : 0 ≤ q) : 0 ≤ roundHalfEven q := by
  unfold roundHalfEven
  have h0 : (0:ℤ) ≤ ⌊q⌋ ∨ ⌊q⌋ = -1 ∨ ⌊q⌋ < -1 := by omega
  have hfl : (0:ℚ) ≤ q := h
  have : (-1:ℤ) < ⌊q⌋ := by
    have := Int.lt_floor_add_one q
    have : (0:ℤ) ≤ ⌊q⌋ := Int.le_floor.mpr (by exact_mod_cast h)
    omega
  have hge : (0:ℤ) ≤ ⌊q⌋ := by omega
  dsimp only
  split
  · exact hge
  · split
    · omega
    · split <;> omega

theorem round2_nonneg {q : ℚ} (h : 0 ≤ q) : 0 ≤ round2 q := by
  unfold round2
  have : (0:ℚ) ≤ (roundHalfEven (q * 100) : ℚ) := by
    exact_mod_cast roundHalfEven_nonneg (by positivity)
  positivity

/-- Python substring containment test (the `in` operator on strings). -/
def pyContains (needle s : String) : Bool := 1 < (s.splitOn needle).length

/-! ## Investment Strategy Engine (ai_core/investment_advisor.py)

The strategy templates are Python dicts whose values mix floats (the asset
weights) with a string (the "description" entry), so allocation dicts are
embedded as association lists over a sum type of rational and string values. -/

/-- A Python dict value that is either a float or a string. -/
inductive PyVal where
  | num : ℚ → PyVal
  | str : String → PyVal
deriving DecidableEq

/-- A Python dict with string keys, in insertion order. -/
abbrev PyDict := List (String × PyVal)

/-- Dict lookup (d[k] / d.get(k)). -/
def dgetVal (d : PyDict) (k : String) : Option PyVal :=
  (d.find? (fun p => p.1 = k)).map (fun p => p.2)

/-- Read a numeric entry for arithmetic; a string value raises TypeError as in
Python (str times float / str plus float are unsupported). -/
def dgetNum (d : PyDict) (k : String) : Except String ℚ :=
  match dgetVal d k with
  | some (.num q) => .ok q
  | some (.str _) => .error "TypeError: unsupported operand type"
  | none => .error "KeyError"

/-- Dict update d[k] = v: replaces in place, keeping insertion order. -/
def dset (d : PyDict) (k : String) (v : PyVal) : PyDict :=
  if d.any (fun p => p.1 = k) then
    d.map (fun p => if p.1 = k then (k, v) else p)
  else d ++ [(k, v)]

/-- Python sum(values) folded left from integer 0; adding a string to the
accumulator raises TypeError, as in sum over the allocation dict values. -/
def pySumVals (acc : ℚ) : List PyVal → Except String ℚ
  | [] => .ok acc
  | .num q :: rest => pySumVals (acc + q) rest
  | .str _ :: _ => .error "TypeError: unsupported operand type for +"

/-- The conservative strategy template dict from InvestmentAdvisor.__init__. -/
def conservativeD : PyDict :=
  [("bonds", .num (60/100)), ("stocks", .num (30/100)), ("cash", .num (10/100)),
   ("description", .str "Low risk, stable returns, suitable for retirees or risk-averse investors")]

/-- The moderate strategy template dict from InvestmentAdvisor.__init__. -/
def moderateD : PyDict :=
  [("bonds", .num (40/100)), ("stocks", .num (50/100)), ("cash", .num (10/100)),
   ("description", .str "Balanced approach, moderate risk and return potential")]

/-- The aggressive strategy template dict from InvestmentAdvisor.__init__. -/
def aggressiveD : PyDict :=
  [("bonds", .num (20/100)), ("stocks", .num (70/100)), ("cash", .num (10/100)),
   ("description", .str "Higher risk, higher return potential, suitable for long-term investors")]

/-- The growth strategy template dict from InvestmentAdvisor.__init__. -/
def growthD : PyDict :=
  [("bonds", .num (10/100)), ("stocks", .num (80/100)), ("cash", .num (10/100)),
   ("description", .str "Maximum growth potential, highest risk, for young investors with long time horizon")]

/-- self.strategies.get(name, self.strategies["moderate"]). -/
def strategiesGet (name : String) : PyDict :=
  if name = "conservative" then conservativeD
  else if name = "moderate" then moderateD
  else if name = "aggressive" then aggressiveD
  else if name = "growth" then growthD
  else moderateD

/-- Result record of _determine_base_strategy. -/
structure BaseStrategy where
  name : String
  allocation : PyDict
  descr : String
deriving DecidableEq

/-- _determine_base_strategy: pick the archetype from age, horizon text and
stated risk tolerance; the returned allocation is strategy.copy(), which
copies the whole template dict including its "description" entry. -/
def determine_base_strategy (risk_tolerance : String) (age : ℤ) (hzn : String) :
    BaseStrategy :=
  let base_name :=
    if age < 30 ∧ pyContains "long" hzn.toLower then "growth"
    else if 60 < age ∨ pyContains "short" hzn.toLower then "conservative"
    else risk_tolerance
  let strat := strategiesGet base_name
  { name := base_name
    allocation := strat
    descr := match dgetVal strat "description" with
             | some (.str s) => s
             | _ => "" }

/-- Goal adjustments of _customize_for_goals, with the three membership tests
("retirement" / "education" / "emergency_fund" in goals) evaluated first.
After the adjustments it runs total = sum(allocation.values()) and divides
every entry by the total; both steps raise TypeError on a string value. -/
def customizeCore (alloc : PyDict) (retire educate emergency : Bool) :
    Except String PyDict := do
  let a := alloc
  let a ← if retire then do
      let b ← dgetNum a "bonds"
      let a := dset a "bonds" (.num (min (8/10) (b * 12/10)))
      let s ← dgetNum a "stocks"
      pure (dset a "stocks" (.num (max (1/10) (s * 8/10))))
    else pure a
  let a ← if educate then do
      let b ← dgetNum a "bonds"
      let a := dset a "bonds" (.num (min (7/10) (b * 11/10)))
      let c ← dgetNum a "cash"
      pure (dset a "cash" (.num (min (2/10) (c * 15/10))))
    else pure a
  let a ← if emergency then do
      let c ← dgetNum a "cash"
      let a := dset a "cash" (.num (min (25/100) (c * 15/10)))
      let s ← dgetNum a "stocks"
      pure (dset a "stocks" (.num (max (5/100) (s * 9/10))))
    else pure a
  let total ← pySumVals 0 (a.map (fun p => p.2))
  a.mapM (fun p =>
    match p.2 with
    | .num q => Except.ok (p.1, PyVal.num (q / total))
    | .str _ => Except.error "TypeError: unsupported operand type for div")

/-- _customize_for_goals applied to a base strategy allocation and goal list. -/
def customize_for_goals (base : BaseStrategy) (goals : List String) :
    Except String PyDict :=
  customizeCore base.allocation (goals.contains "retirement")
    (goals.contains "education") (goals.contains "emergency_fund")

/-! ## Pipeline Orchestrator (ai_core/financial_advisor_graph.py)

The LangGraph workflow of _build_workflow is embedded as its node table and
edge map, executed by a fuel-indexed driver.  The bodies of the five stages
call external collaborators (database, LLMs, the forecaster); their outcomes
are abstracted as an Except value per stage, quantified over in the theorems. -/

/-- The FinancialState TypedDict threaded through the workflow. -/
structure FState (Fd Ex Fc : Type) where
  user_query : String
  user_id : String
  financial_data : Option Fd
  expenses : Option Ex
  forecast : Option Fc
  response : String
  error : String
  expense_analysis : String
  investment_advice : String

/-- The initial state built by get_financial_advice. -/
def initState (Fd Ex Fc : Type) (q uid : String) : FState Fd Ex Fc :=
  { user_query := q, user_id := uid, financial_data := none, expenses := none,
    forecast := none, response := "", error := "", expense_analysis := "",
    investment_advice := "" }

/-- Abstracted outcome of the external call made by each stage body. -/
structure StageOutcomes (Fd Ex Fc : Type) where
  collectR : Except String (Fd × Ex)
  analyzeR : Except String String
  adviceR : Except String String
  forecastR : Except String Fc
  synthR : Except String String

variable {Fd Ex Fc : Type}

/-- _collect_financial_data: on success store snapshot and expenses, on an
exception write the stage error message; the state is returned either way. -/
def collect_node (o : StageOutcomes Fd Ex Fc) (s : FState Fd Ex Fc) : FState Fd Ex Fc :=
  match o.collectR with
  | .ok (fdv, exv) => { s with financial_data := some fdv, expenses := some exv }
  | .error e => { s with error := "Error collecting financial data: " ++ e }

/-- _analyze_expenses: store the narrative text or the stage error message. -/
def analyze_node (o : StageOutcomes Fd Ex Fc) (s : FState Fd Ex Fc) : FState Fd Ex Fc :=
  match o.analyzeR with
  | .ok t => { s with expense_analysis := t }
  | .error e => { s with error := "Error analyzing expenses: " ++ e }

/-- _generate_investment_advice: store the narrative text or the error. -/
def advice_node (o : StageOutcomes Fd Ex Fc) (s : FState Fd Ex Fc) : FState Fd Ex Fc :=
  match o.adviceR with
  | .ok t => { s with investment_advice := t }
  | .error e => { s with error := "Error generating investment advice: " ++ e }

/-- _forecast_financial_health: store the forecast or the error. -/
def forecast_node (o : StageOutcomes Fd Ex Fc) (s : FState Fd Ex Fc) : FState Fd Ex Fc :=
  match o.forecastR with
  | .ok f => { s with forecast := some f }
  | .error e => { s with error := "Error forecasting financial health: " ++ e }

/-- _synthesize_advice: store the final narrative or the error. -/
def synth_node (o : StageOutcomes Fd Ex Fc) (s : FState Fd Ex Fc) : FState Fd Ex Fc :=
  match o.synthR with
  | .ok t => { s with response := t }
  | .error e => { s with error := "Error synthesizing advice: " ++ e }

/-- Node table of _build_workflow (workflow.add_node calls). -/
def nodeFn (o : StageOutcomes Fd Ex Fc) :
    String → Option (FState Fd Ex Fc → FState Fd Ex Fc)
  | "collect_financial_data" => some (collect_node o)
  | "analyze_expenses" => some (analyze_node o)
  | "generate_investment_advice" => some (advice_node o)
  | "forecast_financial_health" => some (forecast_node o)
  | "synthesize_advice" => some (synth_node o)
  | _ => none

/-- Edge map of _build_workflow (workflow.add_edge calls); none is END.
Every edge is unconditional: no edge inspects the state or its error field. -/
def nextNode : String → Option String
  | "collect_financial_data" => some "analyze_expenses"
  | "analyze_expenses" => some "generate_investment_advice"
  | "generate_investment_advice" => some "forecast_financial_health"
  | "forecast_financial_health" => some "synthesize_advice"
  | _ => none

/-- Drive the compiled graph from a node, returning the final state and the
trace of node names executed, in order. -/
def runFrom (o : StageOutcomes Fd Ex Fc) : Nat → String → FState Fd Ex Fc →
    FState Fd Ex Fc × List String
  | 0, _, s => (s, [])
  | fuel + 1, name, s =>
    match nodeFn o name with
    | none => (s, [])
    | some f =>
      let s' := f s
      match nextNode name with
      | none => (s', [name])
      | some nxt =>
        let r := runFrom o fuel nxt s'
        (r.1, name :: r.2)

/-- workflow.ainvoke on the initial state: run from the entry point. -/
def workflow_run (o : StageOutcomes Fd Ex Fc) (s : FState Fd Ex Fc) :
    FState Fd Ex Fc × List String :=
  runFrom o 5 "collect_financial_data" s

/-- The PlanResult envelope returned by get_financial_advice. -/
structure PlanResult (Fc : Type) where
  success : Bool
  advice : Option String
  forecast : Option Fc
  expense_analysis : Option String
  investment_advice : Option String
  error : Option String

/-- The failure envelope: success false, the error string, advice None. -/
def failureEnvelope {Fc : Type} (e : String) : PlanResult Fc :=
  { success := false, advice := none, forecast := none, expense_analysis := none,
    investment_advice := none, error := some e }

/-- The success envelope carrying advice, forecast and the two analyses. -/
def successEnvelope (fs : FState Fd Ex Fc) : PlanResult Fc :=
  { success := true, advice := some fs.response, forecast := fs.forecast,
    expense_analysis := some fs.expense_analysis,
    investment_advice := some fs.investment_advice, error := none }

/-- get_financial_advice: run the workflow on the initial state, then branch
once on the truthiness of the final error string. -/
def get_financial_advice (o : StageOutcomes Fd Ex Fc) (q uid : String) :
    PlanResult Fc :=
  let fs := (workflow_run o (initState Fd Ex Fc q uid)).1
  if fs.error = "" then successEnvelope fs else failureEnvelope fs.error

/-! ## Forecast Engine (ai_core/financial_forecaster.py) -/

/-- One expense record, reduced to the fields the forecaster reads; the ISO
timestamp is idealised as an integer day number. -/
structure Expense where
  date : ℤ
  amount : ℚ
deriving DecidableEq

/-- The financial_data dict fields read by the forecaster; a missing key is
none and each call site applies its own .get default. -/
structure FinData where
  monthly_income : Option ℚ
  total_assets : Option ℚ
  total_liabilities : Option ℚ
  emergency_fund : Option ℚ
  health_insurance_coverage : Option ℚ
  portfolio_value : Option ℚ
deriving DecidableEq

/-- A FinData with every key missing, so every default applies. -/
def emptyFinData : FinData := ⟨none, none, none, none, none, none⟩

/-- self.forecast_horizons. -/
def horizons : List ℕ := [30, 90, 180, 365]

/-- The trailing-30-day expense total: sum of amounts whose date is on or
after now minus 30 days (the ISO-string comparison in _forecast_cash_flow). -/
def trailing30Sum (expenses : List Expense) (now : ℤ) : ℚ :=
  ((expenses.filter (fun e => now - 30 ≤ e.date)).map (fun e => e.amount)).sum

/-- One per-horizon record of the cash-flow forecast dict. -/
structure CashFlowEntry where
  projected_income : ℚ
  projected_expenses : ℚ
  monthly_cash_flow : ℚ
  cumulative_cash_flow : ℚ
  ratio_q : ℚ
deriving DecidableEq

/-- The body of the per-horizon loop of _forecast_cash_flow: fixed 3 percent
yearly income growth and 2 percent yearly expense inflation, both linear in
days; the ratio_q field is the cash_flow_ratio dict entry. -/
def cash_flow_entry (current_income current_expenses : ℚ) (h : ℕ) :
    String × CashFlowEntry :=
  let current_cash_flow := current_income - current_expenses
  let income_growth_rate : ℚ := 3/100/365
  let projected_income := current_income * (1 + income_growth_rate * h)
  let expense_inflation_rate : ℚ := 2/100/365
  let projected_expenses := current_expenses * (1 + expense_inflation_rate * h)
  let projected_cash_flow := projected_income - projected_expenses
  let cumulative_cash_flow := current_cash_flow + projected_cash_flow * h / 30
  (toString h ++ "_days",
   { projected_income := round2 projected_income
     projected_expenses := round2 projected_expenses
     monthly_cash_flow := round2 projected_cash_flow
     cumulative_cash_flow := round2 cumulative_cash_flow
     ratio_q := if 0 < projected_expenses then
         round2 (projected_cash_flow / projected_expenses) else 0 })

/-- The per-horizon loop of _forecast_cash_flow. -/
def cash_flow_entries (current_income current_expenses : ℚ) :
    List (String × CashFlowEntry) :=
  horizons.map (cash_flow_entry current_income current_expenses)

/-- _forecast_cash_flow: the current time enters only through the trailing
30-day expense total. -/
def forecast_cash_flow (fd : FinData) (expenses : List Expense) (now : ℤ) :
    List (String × CashFlowEntry) :=
  cash_flow_entries (fd.monthly_income.getD 5000) (trailing30Sum expenses now)

/-- One per-horizon record of the net-worth projection dict. -/
structure NetWorthEntry where
  projected_assets : ℚ
  projected_portfolio_value : ℚ
  projected_liabilities : ℚ
  projected_net_worth : ℚ
  net_worth_change : ℚ
  growth_rate : ℚ
deriving DecidableEq

/-- _project_net_worth, reading the monthly cash flow of each horizon back
out of the cash-flow forecast (default 0 when the key is absent). -/
def project_net_worth (fd : FinData) (cf : List (String × CashFlowEntry)) :
    List (String × NetWorthEntry) :=
  let current_assets := fd.total_assets.getD 100000
  let current_liabilities := fd.total_liabilities.getD 25000
  let current_net_worth := current_assets - current_liabilities
  let pv := fd.portfolio_value.getD 50000
  horizons.map fun (h : ℕ) =>
    let market_growth_rate : ℚ := 8/100/365
    let daily_contribution :=
      (((cf.lookup (toString h ++ "_days")).map
        (fun e => e.monthly_cash_flow)).getD 0) / 30
    let projected_portfolio_v :=
      pv * (1 + market_growth_rate * (h : ℚ)) + daily_contribution * (h : ℚ)
    let other_assets := current_assets - pv
    let projected_other_assets := other_assets * (1 + (2/100/365 : ℚ) * (h : ℚ))
    let projected_liabilities :=
      max 0 (current_liabilities * (1 - (5/100/365 : ℚ) * (h : ℚ)))
    let projected_assets := projected_portfolio_v + projected_other_assets
    let projected_net_worth := projected_assets - projected_liabilities
    (toString h ++ "_days",
     { projected_assets := round2 projected_assets
       projected_portfolio_value := round2 projected_portfolio_v
       projected_liabilities := round2 projected_liabilities
       projected_net_worth := round2 projected_net_worth
       net_worth_change := round2 (projected_net_worth - current_net_worth)
       growth_rate := if 0 < current_net_worth then
           round2 ((projected_net_worth / current_net_worth - 1) * 100) else 0 })

/-- Insert an integer key into an ascending list, after existing equals. -/
def insertSortedKey (x : ℤ) : List ℤ → List ℤ
  | [] => [x]
  | y :: ys => if y ≤ x then y :: insertSortedKey x ys else x :: y :: ys

/-- Ascending insertion sort of integer keys. -/
def sortKeys (l : List ℤ) : List ℤ := l.foldl (fun acc x => insertSortedKey x acc) []

/-- The distinct keys of a grouped series, ascending (pandas groupby order). -/
def uniqueSortedKeys (l : List ℤ) : List ℤ := sortKeys l.eraseDups

/-- pandas groupby(key).sum(): per distinct key, the sum of its values,
listed in ascending key order. -/
def groupKeySums (rows : List (ℤ × ℚ)) : List ℚ :=
  (uniqueSortedKeys (rows.map (fun r => r.1))).map
    (fun k => ((rows.filter (fun r => r.1 = k)).map (fun r => r.2)).sum)

/-- Daily expense totals: amounts grouped by calendar date, ascending. -/
def dailyTotals (expenses : List Expense) : List ℚ :=
  groupKeySums (expenses.map (fun e => (e.date, e.amount)))

/-- Mean of the last w entries of a series. -/
def meanLast (w : ℕ) (xs : List ℚ) : ℚ := qMean (xs.drop (xs.length - w))

/-- Last value of a pandas rolling(w).mean() series: NaN (none) while the
series is shorter than the window. -/
def rollingLast (w : ℕ) (xs : List ℚ) : Option ℚ :=
  if w ≤ xs.length then some (meanLast w xs) else none

/-- Sample variance with ddof 1 (the quantity under the pandas std sqrt). -/
def sampleVariance (xs : List ℚ) : ℚ :=
  (xs.map (fun x => (x - qMean xs) ^ 2)).sum / ((xs.length : ℚ) - 1)

/-- pandas Series.std(): float sqrt (the fsqrt parameter) of the sample
variance. -/
def sampleStd (fsqrt : ℚ → ℚ) (xs : List ℚ) : ℚ := fsqrt (sampleVariance xs)

/-- The confidence levels with the z-scores hard-coded in _forecast_expenses
(keys rendered as int(confidence*100) percent). -/
def confLevels : List (String × ℚ) := [("68%", 1), ("95%", 49/25), ("99%", 129/50)]

/-- One confidence interval: the lower bound is always a number because
max(0, x) returns 0 even when x is NaN; the upper bound propagates NaN. -/
structure ConfInterval where
  lower : ℚ
  upper : Option ℚ
deriving DecidableEq

/-- One per-horizon record of the expense forecast dict. -/
structure ExpenseEntry where
  projected_daily_expense : Option ℚ
  projected_monthly_expense : Option ℚ
  confidence_intervals : List (String × ConfInterval)
  volatility : ℚ
deriving DecidableEq

/-- The current baseline of _forecast_expenses: with at least 7 daily samples
it is the LAST value of the 30-day rolling mean (NaN whenever there are fewer
than 30 samples); only below 7 samples does it fall back to the overall mean.
A 7-day rolling series is also computed by the code but never used. -/
def expense_current_avg (expenses : List Expense) : Option ℚ :=
  let daily := dailyTotals expenses
  if 7 ≤ daily.length then rollingLast 30 daily else some (qMean daily)

/-- _forecast_expenses: project the baseline at 2 percent yearly inflation and
attach z-score confidence intervals with margin z * std / sqrt(horizon). -/
def forecast_expenses (fsqrt : ℚ → ℚ) (expenses : List Expense) :
    Except String (List (String × ExpenseEntry)) :=
  if expenses.isEmpty then .error "No expense data available"
  else
    let daily := dailyTotals expenses
    let current_avg := expense_current_avg expenses
    let expense_volatility : ℚ := if 1 < daily.length then sampleStd fsqrt daily else 0
    .ok (horizons.map fun (h : ℕ) =>
      let inflation_rate : ℚ := 2/100/365
      let projected_daily := current_avg.map (fun c => c * (1 + inflation_rate * (h : ℚ)))
      let cis := confLevels.map (fun lz =>
        let margin := if 0 < h then lz.2 * expense_volatility / fsqrt (h : ℚ) else 0
        (lz.1,
         ConfInterval.mk (pyMax0 (projected_daily.map (fun p => p - margin)))
           (projected_daily.map (fun p => p + margin))))
      (toString h ++ "_days",
       { projected_daily_expense := projected_daily.map round2
         projected_monthly_expense := (projected_daily.map (fun p => p * 30)).map round2
         confidence_intervals := cis
         volatility := round2 expense_volatility }))

/-- Python float division: raises ZeroDivisionError on a zero denominator. -/
def pyDiv (a b : ℚ) : Except String ℚ :=
  if b = 0 then .error "float division by zero" else .ok (a / b)

/-- Python float power via the abstract fpow parameter: raises on a negative
base with a fractional exponent, as float ** does. -/
def pyPow (fpow : ℚ → ℚ → ℚ) (b e : ℚ) : Except String ℚ :=
  if b < 0 ∧ e.den ≠ 1 then
    .error "negative number cannot be raised to a fractional power"
  else .ok (fpow b e)

/-- The three economic scenarios of FinancialForecaster.__init__ as
(name, market_return, inflation_rate, probability); the interest_rate entry
is never read by the forecaster. -/
def economic_scenarios : List (String × ℚ × ℚ × ℚ) :=
  [("baseline", 8/100, 25/1000, 6/10),
   ("optimistic", 12/100, 2/100, 2/10),
   ("pessimistic", 4/100, 4/100, 2/10)]

/-- One scenario-and-horizon record of the investment-return projection. -/
structure InvEntry where
  projected_value : ℚ
  total_return : ℚ
  annualized_return : ℚ
  real_return : ℚ
  probability : ℚ
deriving DecidableEq

/-- A Python for loop building a list, stopping at the first raised
exception. -/
def exceptMapList {α β : Type} (f : α → Except String β) :
    List α → Except String (List β)
  | [] => .ok []
  | x :: xs => do
    let y ← f x
    let ys ← exceptMapList f xs
    pure (y :: ys)

/-- The per-horizon loop body of _project_investment_returns: linear-in-days
compounding at the scenario market return; the annualized return divides the
projected value by the current portfolio value, which raises
ZeroDivisionError when that value is 0. -/
def inv_entry (fpow : ℚ → ℚ → ℚ) (current_pv mr infl prob : ℚ) (h : ℕ) :
    Except String (String × InvEntry) := do
  let daily_return_rate := mr / 365
  let projected_value := current_pv * (1 + daily_return_rate * (h : ℚ))
  let total_return := projected_value - current_pv
  let annualized ← if 0 < h then do
      let ratio_v ← pyDiv projected_value current_pv
      let p ← pyPow fpow ratio_v (365 / (h : ℚ))
      pure (p - 1)
    else pure (0 : ℚ)
  let real_return := total_return - current_pv * (infl / 365) * (h : ℚ)
  pure (toString h ++ "_days",
    InvEntry.mk (round2 projected_value) (round2 total_return)
      (round2 (annualized * 100)) (round2 real_return) prob)

/-- _project_investment_returns: the scenario-by-horizon table, with the
whole computation wrapped in the try/except that prefixes the error text. -/
def project_investment_returns (fpow : ℚ → ℚ → ℚ) (fd : FinData) :
    Except String (List (String × List (String × InvEntry))) :=
  let current_pv := fd.portfolio_value.getD 50000
  (exceptMapList (fun (sc : String × ℚ × ℚ × ℚ) => do
    let rows ← exceptMapList (inv_entry fpow current_pv sc.2.1 sc.2.2.1 sc.2.2.2) horizons
    pure (sc.1, rows)) economic_scenarios).mapError
      (fun e => "Error projecting investment returns: " ++ e)

/-- Result record of _simulate_market_crash. -/
structure CrashResult where
  scenarioLabel : String
  portfolio_loss : ℚ
  new_portfolio_value : ℚ
  recovery_time_months : ℚ
  monthly_recovery_amount : ℚ
  risk_level : String
  mitigation_strategies : List String
deriving DecidableEq

/-- _simulate_market_crash: flat 30 percent markdown, 60-month recovery, and
a risk level that is the constant "high". -/
def simulate_market_crash (fd : FinData) : CrashResult :=
  let portfolio_v := fd.portfolio_value.getD 50000
  let crash_impact : ℚ := 30/100
  let new_portfolio_v := portfolio_v * (1 - crash_impact)
  let net_worth_impact := portfolio_v * crash_impact
  let recovery_months : ℚ := 5 * 12
  { scenarioLabel := "30% Market Crash"
    portfolio_loss := round2 net_worth_impact
    new_portfolio_value := round2 new_portfolio_v
    recovery_time_months := recovery_months
    monthly_recovery_amount := round2 (net_worth_impact / recovery_months)
    risk_level := "high"
    mitigation_strategies :=
      ["Maintain emergency fund", "Diversify across asset classes",
       "Consider defensive stocks", "Dollar-cost averaging during recovery"] }

/-- Result record of _simulate_job_loss; monthly_expenses, required fund and
funding gap propagate a NaN monthly expense. -/
structure JobLossResult where
  scenarioLabel : String
  monthly_income_loss : ℚ
  current_emergency_fund : ℚ
  monthly_expenses : Option ℚ
  survival_months : ℚ
  required_emergency_fund : Option ℚ
  funding_gap : Option ℚ
  risk_level : String
  mitigation_strategies : List String
deriving DecidableEq

/-- _simulate_job_loss: survival runway from the emergency fund and the
projected 30-day monthly expense (0 when that expense is not positive, which
includes the NaN case); risk is "medium" exactly when the runway is at least
3 months. -/
def simulate_job_loss (fd : FinData) (monthly_expenses : Option ℚ) : JobLossResult :=
  let monthly_income := fd.monthly_income.getD 5000
  let emergency_fund := fd.emergency_fund.getD 15000
  let survival : ℚ :=
    match monthly_expenses with
    | some m => if 0 < m then emergency_fund / m else 0
    | none => 0
  { scenarioLabel := "Job Loss"
    monthly_income_loss := monthly_income
    current_emergency_fund := emergency_fund
    monthly_expenses := monthly_expenses
    survival_months := round1 survival
    required_emergency_fund := monthly_expenses.map (fun m => round2 (m * 6))
    funding_gap := monthly_expenses.map (fun m => round2 (m * 6 - emergency_fund))
    risk_level := if 3 ≤ survival then "medium" else "high"
    mitigation_strategies :=
      ["Build emergency fund to 6 months of expenses", "Reduce discretionary spending",
       "Consider side income sources", "Review insurance coverage"] }

/-- Result record of _simulate_medical_emergency. -/
structure MedicalResult where
  scenarioLabel : String
  total_cost : ℚ
  insurance_coverage : ℚ
  out_of_pocket_cost : ℚ
  emergency_fund : ℚ
  can_cover : Bool
  funding_gap : ℚ
  risk_level : String
  mitigation_strategies : List String
deriving DecidableEq

/-- _simulate_medical_emergency: fixed 10000 event against the insurance
coverage ratio and the emergency fund. -/
def simulate_medical_emergency (fd : FinData) : MedicalResult :=
  let medical_cost : ℚ := 10000
  let coverage := fd.health_insurance_coverage.getD (8/10)
  let out_of_pocket := medical_cost * (1 - coverage)
  let emergency_fund := fd.emergency_fund.getD 15000
  let can_cover := decide (out_of_pocket ≤ emergency_fund)
  { scenarioLabel := "Medical Emergency ($10,000)"
    total_cost := medical_cost
    insurance_coverage := coverage
    out_of_pocket_cost := round2 out_of_pocket
    emergency_fund := emergency_fund
    can_cover := can_cover
    funding_gap := round2 (max 0 (out_of_pocket - emergency_fund))
    risk_level := if can_cover then "low" else "high"
    mitigation_strategies :=
      ["Ensure adequate health insurance", "Build emergency fund",
       "Consider health savings account", "Review medical expense budget"] }

/-- Result record of _simulate_interest_rate_shock. -/
structure ShockResult where
  scenarioLabel : String
  rate_increase : ℚ
  additional_annual_interest : ℚ
  monthly_payment_increase : ℚ
  risk_level : String
  mitigation_strategies : List String
deriving DecidableEq

/-- _simulate_interest_rate_shock: flat 2-point increase on liabilities with
a risk level that is the constant "medium". -/
def simulate_interest_rate_shock (fd : FinData) : ShockResult :=
  let rate_increase : ℚ := 2/100
  let current_liabilities := fd.total_liabilities.getD 25000
  let additional_interest := current_liabilities * rate_increase
  { scenarioLabel := "2% Interest Rate Increase"
    rate_increase := rate_increase
    additional_annual_interest := round2 additional_interest
    monthly_payment_increase := round2 (additional_interest / 12)
    risk_level := "medium"
    mitigation_strategies :=
      ["Refinance high-interest debt", "Pay down variable-rate loans",
       "Lock in fixed rates", "Build emergency fund for higher payments"] }

/-- The risk_scenarios dict, in insertion order. -/
structure RiskScenarios where
  market_crash : CrashResult
  job_loss : JobLossResult
  medical_emergency : MedicalResult
  interest_rate_shock : ShockResult
deriving DecidableEq

/-- forecast.get("expense_forecast", ...).get("30_days", ...)
.get("projected_monthly_expense", 3000): an error section or a missing key
yields the 3000 default, while a present NaN value stays NaN. -/
def expense_forecast_monthly30
    (ef : Except String (List (String × ExpenseEntry))) : Option ℚ :=
  match ef with
  | .error _ => some 3000
  | .ok l =>
    match l.lookup "30_days" with
    | some e => e.projected_monthly_expense
    | none => some 3000

/-- _generate_risk_scenarios: the four deterministic stress tests. -/
def generate_risk_scenarios (fd : FinData)
    (ef : Except String (List (String × ExpenseEntry))) : RiskScenarios :=
  { market_crash := simulate_market_crash fd
    job_loss := simulate_job_loss fd (expense_forecast_monthly30 ef)
    medical_emergency := simulate_medical_emergency fd
    interest_rate_shock := simulate_interest_rate_shock fd }

/-- Python format spec .1f: one decimal digit, round-half-even. -/
def fmt1f (q : ℚ) : String :=
  let n := roundHalfEven (q * 10)
  let s := if n < 0 then "-" else ""
  let m := n.natAbs
  s ++ toString (m / 10) ++ "." ++ toString (m % 10)

/-- Python format spec .1% as used on the cash-flow ratio. -/
def fmtPercent1 (q : ℚ) : String := fmt1f (q * 100) ++ "%"

/-- Python str.title() over the characters of scenario_name with underscores
replaced by spaces: the first letter of each word is uppercased, the rest
lowercased. -/
def pyTitleAux : Bool → List Char → List Char
  | _, [] => []
  | _, '_' :: cs => ' ' :: pyTitleAux true cs
  | _, ' ' :: cs => ' ' :: pyTitleAux true cs
  | atWordStart, c :: cs =>
    (if atWordStart then c.toUpper else c.toLower) :: pyTitleAux false cs

/-- Python scenario_name.replace(underscore, space).title(). -/
def pyTitle (s : String) : String := ⟨pyTitleAux true s.data⟩

/-- One recommendation dict (descr is the description entry). -/
structure Rec where
  category : String
  priority : String
  title : String
  descr : String
  action : String
  timeline : String
deriving DecidableEq

/-- Cash-flow scan of _generate_forecast_recommendations: any horizon whose
ratio is below 0.2 emits a high-priority item. -/
def cashFlowRecs (cf : List (String × CashFlowEntry)) : List Rec :=
  if cf.isEmpty then [] else
  cf.filterMap (fun p =>
    if p.2.ratio_q < 2/10 then
      some { category := "cash_flow", priority := "high", title := "Improve Cash Flow"
             descr := "Cash flow ratio is " ++ fmtPercent1 p.2.ratio_q ++ " for " ++ p.1
             action := "Review expenses and increase income sources"
             timeline := "immediate" }
    else none)

/-- Net-worth scan: any horizon whose growth rate is below 5 emits a
medium-priority item. -/
def netWorthRecs (nw : List (String × NetWorthEntry)) : List Rec :=
  if nw.isEmpty then [] else
  nw.filterMap (fun p =>
    if p.2.growth_rate < 5 then
      some { category := "net_worth", priority := "medium"
             title := "Accelerate Net Worth Growth"
             descr := "Projected growth rate is " ++ fmt1f p.2.growth_rate ++ "% for " ++ p.1
             action := "Increase savings rate and optimize investments"
             timeline := "3-6 months" }
    else none)

/-- Risk scan: a scenario tagged "high" emits a mitigation item whose action
is the first listed mitigation strategy. -/
def riskRec (name risk : String) (mits : List String) : Option Rec :=
  if risk = "high" then
    some { category := "risk_management", priority := "high"
           title := "Mitigate " ++ pyTitle name ++ " Risk"
           descr := "High risk level identified for " ++ name
           action := mits.headD "Review risk exposure"
           timeline := "immediate" }
  else none

/-- The risk-scenario scan in dict insertion order. -/
def riskRecs (rs : RiskScenarios) : List Rec :=
  ([("market_crash", rs.market_crash.risk_level, rs.market_crash.mitigation_strategies),
    ("job_loss", rs.job_loss.risk_level, rs.job_loss.mitigation_strategies),
    ("medical_emergency", rs.medical_emergency.risk_level,
     rs.medical_emergency.mitigation_strategies),
    ("interest_rate_shock", rs.interest_rate_shock.risk_level,
     rs.interest_rate_shock.mitigation_strategies)]
   : List (String × String × List String)).filterMap
    (fun t => riskRec t.1 t.2.1 t.2.2)

/-- _generate_forecast_recommendations: the three scans, concatenated in
order of appearance. -/
def generate_forecast_recommendations (cf : List (String × CashFlowEntry))
    (nw : List (String × NetWorthEntry)) (rs : RiskScenarios) : List Rec :=
  cashFlowRecs cf ++ netWorthRecs nw ++ riskRecs rs

deriving instance DecidableEq for Except

/-- The forecast dict assembled by generate_forecast.  The sections that can
fail inside their own try blocks are Except values; the others always
succeed on well-typed inputs. -/
structure Forecast where
  cash_flow_forecast : List (String × CashFlowEntry)
  net_worth_projection : List (String × NetWorthEntry)
  expense_forecast : Except String (List (String × ExpenseEntry))
  investment_returns : Except String (List (String × List (String × InvEntry)))
  risk_scenarios : RiskScenarios
  recommendations : List Rec
deriving DecidableEq

/-- generate_forecast: build the six sections in program order.  The current
time enters only through the trailing-30-day filter of the cash-flow stage. -/
def generate_forecast (fsqrt : ℚ → ℚ) (fpow : ℚ → ℚ → ℚ) (fd : FinData)
    (expenses : List Expense) (now : ℤ) : Forecast :=
  let cf := forecast_cash_flow fd expenses now
  let nw := project_net_worth fd cf
  let ef := forecast_expenses fsqrt expenses
  let ir := project_investment_returns fpow fd
  let rs := generate_risk_scenarios fd ef
  { cash_flow_forecast := cf
    net_worth_projection := nw
    expense_forecast := ef
    investment_returns := ir
    risk_scenarios := rs
    recommendations := generate_forecast_recommendations cf nw rs }

/-! ## Expense Pattern Analyzer (ai_core/expense_tracker.py) -/

/-- Stable insertion of a dated row after existing rows with equal dates. -/
def insertRow (x : ℤ × ℚ) : List (ℤ × ℚ) → List (ℤ × ℚ)
  | [] => [x]
  | y :: ys => if y.1 ≤ x.1 then y :: insertRow x ys else x :: y :: ys

/-- df.sort_values(by date), modelled as a stable sort (pandas leaves the
relative order of equal dates unspecified; the claims proved below do not
depend on that order). -/
def sortByDate (rows : List (ℤ × ℚ)) : List (ℤ × ℚ) :=
  rows.foldl (fun acc x => insertRow x acc) []

/-- Result of _calculate_overall_trend: the trend label, and in the fully
computed branch the (short_term_avg, long_term_avg, volatility) triple. -/
structure OverallTrend where
  trend : String
  stats : Option (ℚ × ℚ × ℚ)
deriving DecidableEq

/-- _calculate_overall_trend over (date, amount) rows: below 7 rows report
insufficient data; otherwise compare the last 7-row rolling mean with the
last 30-row rolling mean of the date-sorted amounts, which is NaN whenever
there are fewer than 30 rows (also reported as insufficient data). -/
def calculate_overall_trend (fsqrt : ℚ → ℚ) (rows : List (ℤ × ℚ)) : OverallTrend :=
  if rows.length < 7 then { trend := "insufficient_data", stats := none }
  else
    let amounts := (sortByDate rows).map (fun r => r.2)
    match rollingLast 7 amounts, rollingLast 30 amounts with
    | some latest7, some latest30 =>
      { trend :=
          if latest30 * (11/10) < latest7 then "accelerating"
          else if latest7 < latest30 * (9/10) then "decelerating"
          else "stable"
        stats := some (latest7, latest30, sampleStd fsqrt amounts) }
    | _, _ => { trend := "insufficient_data", stats := none }

/-- _calculate_category_trend over (iso-week, amount) rows of one category:
below 3 transactions report insufficient data, else compare the first and
last weekly totals against the fixed slope thresholds. -/
def calculate_category_trend (rows : List (ℤ × ℚ)) : String :=
  if rows.length < 3 then "insufficient_data"
  else
    let weekly := groupKeySums rows
    if 1 < weekly.length then
      let slope := ((weekly.getLast?.getD 0) - (weekly.head?.getD 0)) / weekly.length
      if 10 < slope then "increasing"
      else if slope < -10 then "decreasing"
      else "stable"
    else "stable"

/-! ## Claim C1 -/

theorem strategiesGet_cases (s : String) :
    strategiesGet s = conservativeD ∨ strategiesGet s = moderateD ∨
    strategiesGet s = aggressiveD ∨ strategiesGet s = growthD := by
  unfold strategiesGet
  split_ifs <;> simp

theorem customizeCore_strategies_error (d : PyDict)
    (hd : d = conservativeD ∨ d = moderateD ∨ d = aggressiveD ∨ d = growthD)
    (b1 b2 b3 : Bool) :
    customizeCore d b1 b2 b3 = .error "TypeError: unsupported operand type for +" := by
  rcases hd with h | h | h | h <;> subst h <;>
    cases b1 <;> cases b2 <;> cases b3 <;> decide

/-- C1: the claim says every allocation returned by the goal-customization
step sums to 1.0 after renormalization.  On the code this step never returns
an allocation at all: the base allocation is strategy.copy(), which carries
the string-valued "description" entry of the template, so for every profile
and every goal list the renormalization step total = sum(allocation.values())
raises TypeError and get_investment_strategy answers with an error envelope. -/
theorem customize_for_goals_always_errors (rt : String) (age : ℤ) (hzn : String)
    (goals : List String) :
    customize_for_goals (determine_base_strategy rt age hzn) goals =
      .error "TypeError: unsupported operand type for +" :=
  customizeCore_strategies_error _ (strategiesGet_cases _) _ _ _

/-! ## Claim C2 -/

/-- C2: for every choice of stage outcomes, the compiled workflow executes
all five stages in declaration order with no short-circuit on error, the
final state is the five-stage composition applied to the initial state, and
get_financial_advice returns the failure envelope exactly when the error
field is non-empty after the last stage, the success envelope otherwise. -/
theorem pipeline_no_short_circuit {Fd Ex Fc : Type} (o : StageOutcomes Fd Ex Fc)
    (q uid : String) :
    (workflow_run o (initState Fd Ex Fc q uid)).2 =
      ["collect_financial_data", "analyze_expenses", "generate_investment_advice",
       "forecast_financial_health", "synthesize_advice"] ∧
    (workflow_run o (initState Fd Ex Fc q uid)).1 =
      synth_node o (forecast_node o (advice_node o (analyze_node o
        (collect_node o (initState Fd Ex Fc q uid))))) ∧
    ((workflow_run o (initState Fd Ex Fc q uid)).1.error ≠ "" →
      get_financial_advice o q uid =
        failureEnvelope (workflow_run o (initState Fd Ex Fc q uid)).1.error) ∧
    ((workflow_run o (initState Fd Ex Fc q uid)).1.error = "" →
      get_financial_advice o q uid =
        successEnvelope (workflow_run o (initState Fd Ex Fc q uid)).1) := by
  refine ⟨rfl, rfl, ?_, ?_⟩
  · intro h
    simp only [get_financial_advice]
    rw [if_neg h]
  · intro h
    simp only [get_financial_advice]
    rw [if_pos h]

/-- Stage outcomes in which every external call succeeds. -/
def allOkOutcomes : StageOutcomes Unit Unit Unit :=
  ⟨.ok ((), ()), .ok "expense text", .ok "advice text", .ok (), .ok "final text"⟩

/-- Stage outcomes in which the first stage raises and the rest succeed. -/
def collectFailOutcomes : StageOutcomes Unit Unit Unit :=
  ⟨.error "db down", .ok "expense text", .ok "advice text", .ok (), .ok "final text"⟩

/-- C2 witness: the envelope dichotomy evaluated at concrete outcomes, once
with every stage succeeding and once with the first stage failing. -/
theorem pipeline_no_short_circuit_witness :
    ((workflow_run allOkOutcomes (initState Unit Unit Unit "q" "u")).1.error = "" ∧
     get_financial_advice allOkOutcomes "q" "u" =
       successEnvelope (workflow_run allOkOutcomes (initState Unit Unit Unit "q" "u")).1) ∧
    ((workflow_run collectFailOutcomes (initState Unit Unit Unit "q" "u")).1.error ≠ "" ∧
     get_financial_advice collectFailOutcomes "q" "u" =
       failureEnvelope
         (workflow_run collectFailOutcomes (initState Unit Unit Unit "q" "u")).1.error) :=
  ⟨⟨rfl, (pipeline_no_short_circuit allOkOutcomes "q" "u").2.2.2 rfl⟩,
   ⟨by decide, (pipeline_no_short_circuit collectFailOutcomes "q" "u").2.2.1 (by decide)⟩⟩

/-! ## Claim C3 -/

/-- Snapshot used by the C3 counterexample: every key missing. -/
def fdC3 : FinData := emptyFinData

/-- Expense history used by the C3 counterexample: one expense on day 0. -/
def exC3 : List Expense := [⟨0, 3000⟩]

/-- C3 counterexample: generate_forecast is not a function of the snapshot
and expense history alone.  With identical inputs, an invocation at day 0
counts the day-0 expense in the trailing 30-day window while an invocation
at day 100 does not, and the two forecasts differ. -/
theorem generate_forecast_depends_on_clock :
    generate_forecast (fun _ => 0) (fun _ _ => 0) fdC3 exC3 0 ≠
    generate_forecast (fun _ => 0) (fun _ _ => 0) fdC3 exC3 100 := fun h =>
  absurd (congrArg Forecast.cash_flow_forecast h) (by decide)

/-- C3 amended: generate_forecast is deterministic in the snapshot, the
expense history and the invocation time, and the time enters only through
the trailing-30-day expense total: two invocations whose trailing totals
agree return equal forecasts. -/
theorem generate_forecast_time_invariance (fsqrt : ℚ → ℚ) (fpow : ℚ → ℚ → ℚ)
    (fd : FinData) (expenses : List Expense) (t t' : ℤ)
    (h : trailing30Sum expenses t = trailing30Sum expenses t') :
    generate_forecast fsqrt fpow fd expenses t =
    generate_forecast fsqrt fpow fd expenses t' := by
  unfold generate_forecast forecast_cash_flow
  rw [h]

/-- C3 witness: the amended invariance applied at concrete inputs whose
trailing-30-day totals agree. -/
theorem generate_forecast_time_invariance_witness :
    trailing30Sum exC3 0 = trailing30Sum exC3 5 ∧
    generate_forecast (fun _ => 0) (fun _ _ => 0) fdC3 exC3 0 =
    generate_forecast (fun _ => 0) (fun _ _ => 0) fdC3 exC3 5 :=
  ⟨by decide, generate_forecast_time_invariance _ _ _ _ _ _ (by decide)⟩

/-! ## Claim C4 -/

/-- The cash-flow entry as the specification words it: projected income at
income times (1 + 0.03/365 h), projected expenses at the 2 percent rate,
monthly cash flow as their difference, cumulative cash flow as baseline plus
monthly times h/30, and ratio monthly over projected expenses with 0 when
the projected expenses are 0. -/
def cashFlowEntrySpec (inc ex30 : ℚ) (h : ℕ) : String × CashFlowEntry :=
  let pi := inc * (1 + 3/100/365 * h)
  let pe := ex30 * (1 + 2/100/365 * h)
  let mcf := pi - pe
  (toString h ++ "_days",
   { projected_income := round2 pi
     projected_expenses := round2 pe
     monthly_cash_flow := round2 mcf
     cumulative_cash_flow := round2 ((inc - ex30) + mcf * h / 30)
     ratio_q := if pe = 0 then 0 else round2 (mcf / pe) })

theorem pyRatio_ite (num pe : ℚ) (hpe : 0 ≤ pe) :
    (if 0 < pe then round2 (num / pe) else 0) =
    (if pe = 0 then 0 else round2 (num / pe)) := by
  rcases hpe.eq_or_lt with h0 | h0
  · rw [if_neg (by simp [← h0]), if_pos h0.symm]
  · rw [if_pos h0, if_neg (ne_of_gt h0)]

theorem cash_flow_entry_eq_spec (inc ex30 : ℚ) (hnn : 0 ≤ ex30) (h : ℕ) :
    cash_flow_entry inc ex30 h = cashFlowEntrySpec inc ex30 h := by
  have hfac : (0:ℚ) < 1 + 2/100/365 * h := by positivity
  have hpe : 0 ≤ ex30 * (1 + 2/100/365 * (h:ℚ)) := mul_nonneg hnn hfac.le
  unfold cash_flow_entry cashFlowEntrySpec
  dsimp only
  rw [pyRatio_ite _ _ hpe]

/-- C4: for a nonnegative trailing-30-day expense total, every per-horizon
cash-flow entry matches the specification formulas, including the ratio
dichotomy at zero projected expenses. -/
theorem cash_flow_entries_spec (inc ex30 : ℚ) (hnn : 0 ≤ ex30) :
    cash_flow_entries inc ex30 = horizons.map (cashFlowEntrySpec inc ex30) := by
  unfold cash_flow_entries
  exact List.map_congr_left (fun h _ => cash_flow_entry_eq_spec inc ex30 hnn h)

/-- C4 witness: the formulas applied at income 5000 and 30-day expenses
3000, with the h = 30 entry evaluated: projected income 5012.33, projected
expenses 3004.93, monthly cash flow 2007.40. -/
theorem cash_flow_entries_spec_witness :
    ((0:ℚ) ≤ 3000 ∧
     cash_flow_entries 5000 3000 = horizons.map (cashFlowEntrySpec 5000 3000)) ∧
    (cash_flow_entries 5000 3000).lookup "30_days" =
      some { projected_income := 501233/100, projected_expenses := 300493/100,
             monthly_cash_flow := 10037/5, cumulative_cash_flow := 20037/5,
             ratio_q := 67/100 } :=
  ⟨⟨by norm_num, cash_flow_entries_spec 5000 3000 (by norm_num)⟩, by decide⟩

/-! ## Claim C5 -/

/-- Expense history with 10 distinct expense days (at least 7, fewer than
30), one 10.00 expense per day: the C5 failing input. -/
def exNaN : List Expense := (List.range 10).map (fun i => ⟨(i : ℤ), 10⟩)

/-- C5: with at least 7 but fewer than 30 distinct expense days the code
does NOT fall back to the overall mean: the current baseline is the last
entry of a 30-day rolling mean over fewer than 30 samples, which is NaN, and
every per-horizon projected daily and monthly expense is NaN as well, where
the claim promises the overall mean and non-NaN numbers. -/
theorem forecast_expenses_nan_bug :
    7 ≤ (dailyTotals exNaN).length ∧ (dailyTotals exNaN).length < 30 ∧
    expense_current_avg exNaN = none ∧
    (forecast_expenses (fun _ => 0) exNaN).toOption.isSome = true ∧
    ∀ p ∈ (forecast_expenses (fun _ => 0) exNaN).toOption.getD [],
      p.2.projected_daily_expense = none ∧ p.2.projected_monthly_expense = none := by
  decide

/-! ## Claim C6 -/

/-- The Python comparison value >= 0 read on a possibly-NaN float: false for
NaN, the rational comparison otherwise. -/
def optNonneg : Option ℚ → Prop
  | some q => 0 ≤ q
  | none => False

instance : DecidablePred optNonneg := fun o =>
  match o with
  | some q => inferInstanceAs (Decidable (0 ≤ q))
  | none => inferInstanceAs (Decidable False)

/-- Expense history with 8 distinct days and nonnegative amounts used by the
C6 counterexample. -/
def exC6 : List Expense := (List.range 8).map (fun i => ⟨(i : ℤ), 5⟩)

/-- C6 counterexample: a non-empty history with nonnegative amounts whose
projected daily expenses are NaN, so `projected_daily_expense ≥ 0` is false
(NaN compares false against 0), refuting the claim as stated. -/
theorem projected_daily_expense_not_nonneg :
    exC6 ≠ [] ∧ (∀ e ∈ exC6, 0 ≤ e.amount) ∧
    ¬ (∀ p ∈ (forecast_expenses (fun _ => 0) exC6).toOption.getD [],
        optNonneg p.2.projected_daily_expense) := by decide

theorem pyMax0_nonneg (o : Option ℚ) : 0 ≤ pyMax0 o := by
  cases o with
  | none => exact le_refl 0
  | some x => exact le_max_left 0 x

theorem dailyTotals_nonneg (expenses : List Expense)
    (hnn : ∀ e ∈ expenses, 0 ≤ e.amount) : ∀ t ∈ dailyTotals expenses, 0 ≤ t := by
  intro t ht
  unfold dailyTotals groupKeySums at ht
  rcases List.mem_map.mp ht with ⟨k, _, rfl⟩
  apply List.sum_nonneg
  intro x hx
  rcases List.mem_map.mp hx with ⟨r, hr, rfl⟩
  have hr2 := (List.mem_filter.mp hr).1
  rcases List.mem_map.mp hr2 with ⟨e, he, rfl⟩
  exact hnn e he

theorem qMean_nonneg (xs : List ℚ) (h : ∀ x ∈ xs, 0 ≤ x) : 0 ≤ qMean xs :=
  div_nonneg (List.sum_nonneg h) (Nat.cast_nonneg _)

theorem meanLast_nonneg (w : ℕ) (xs : List ℚ) (h : ∀ x ∈ xs, 0 ≤ x) :
    0 ≤ meanLast w xs :=
  qMean_nonneg _ (fun x hx => h x (List.drop_subset _ _ hx))

theorem expense_current_avg_nonneg (expenses : List Expense)
    (hnn : ∀ e ∈ expenses, 0 ≤ e.amount)
    (hreg : (dailyTotals expenses).length < 7 ∨ 30 ≤ (dailyTotals expenses).length) :
    ∃ c, expense_current_avg expenses = some c ∧ 0 ≤ c := by
  unfold expense_current_avg rollingLast
  rcases hreg with hlt | hge
  · rw [if_neg (by omega)]
    exact ⟨_, rfl, qMean_nonneg _ (dailyTotals_nonneg expenses hnn)⟩
  · rw [if_pos (by omega), if_pos (by omega)]
    exact ⟨_, rfl, meanLast_nonneg _ _ (dailyTotals_nonneg expenses hnn)⟩

/-- C6 amended: for every non-empty history with nonnegative amounts the
expense forecast succeeds, every confidence-interval lower bound is
clamped nonnegative, and whenever the baseline is a number at all (fewer
than 7 or at least 30 distinct expense days, the NaN regime excluded by the
counterexample) every projected daily expense is nonnegative. -/
theorem expense_forecast_nonneg_amended (fsqrt : ℚ → ℚ) (expenses : List Expense)
    (hne : expenses ≠ []) (hnn : ∀ e ∈ expenses, 0 ≤ e.amount) :
    ∃ l, forecast_expenses fsqrt expenses = .ok l ∧
      (∀ p ∈ l, ∀ c ∈ p.2.confidence_intervals, 0 ≤ c.2.lower) ∧
      (((dailyTotals expenses).length < 7 ∨ 30 ≤ (dailyTotals expenses).length) →
        ∀ p ∈ l, optNonneg p.2.projected_daily_expense) := by
  have hemp : expenses.isEmpty = false := by
    cases expenses with
    | nil => exact absurd rfl hne
    | cons a l => rfl
  unfold forecast_expenses
  rw [hemp]
  simp only [Bool.false_eq_true, if_false]
  refine ⟨_, rfl, ?_, ?_⟩
  · intro p hp c hc
    rcases List.mem_map.mp hp with ⟨h, _, rfl⟩
    dsimp only at hc ⊢
    rcases List.mem_map.mp hc with ⟨lz, _, rfl⟩
    exact pyMax0_nonneg _
  · intro hreg p hp
    rcases expense_current_avg_nonneg expenses hnn hreg with ⟨c, hca, hc⟩
    rcases List.mem_map.mp hp with ⟨hn, _, rfl⟩
    dsimp only
    rw [hca]
    have hfac : (0:ℚ) ≤ 1 + 2/100/365 * (hn : ℚ) :=
      add_nonneg zero_le_one (mul_nonneg (by norm_num) (Nat.cast_nonneg hn))
    exact round2_nonneg (mul_nonneg hc hfac)

/-- History with two expense days used by the C6 witness. -/
def exC6w : List Expense := [⟨0, 10⟩, ⟨1, 20⟩]

/-- C6 witness: the amended statement applied to a concrete two-day history
(fewer than 7 distinct days, so the baseline is the overall mean). -/
theorem expense_forecast_nonneg_amended_witness :
    (exC6w ≠ [] ∧ (∀ e ∈ exC6w, 0 ≤ e.amount)) ∧
    (∃ l, forecast_expenses (fun _ => 1) exC6w = .ok l ∧
      (∀ p ∈ l, ∀ c ∈ p.2.confidence_intervals, 0 ≤ c.2.lower) ∧
      (((dailyTotals exC6w).length < 7 ∨ 30 ≤ (dailyTotals exC6w).length) →
        ∀ p ∈ l, optNonneg p.2.projected_daily_expense)) :=
  ⟨⟨by decide, by decide⟩,
   expense_forecast_nonneg_amended (fun _ => 1) exC6w (by decide) (by decide)⟩

/-! ## Claim C7 -/

theorem riskIte (c : Prop) [Decidable c] :
    ((if c then "medium" else "high") = "medium" ↔ c) ∧
    ((if c then "medium" else "high") = "high" ↔ ¬c) := by
  by_cases h : c
  · rw [if_pos h]
    exact ⟨⟨fun _ => h, fun _ => rfl⟩,
           ⟨fun he => absurd he (by decide), fun hn => absurd h hn⟩⟩
  · rw [if_neg h]
    exact ⟨⟨fun he => absurd he (by decide), fun hc => absurd hc h⟩,
           ⟨fun _ => h, fun _ => rfl⟩⟩

/-- Snapshot of the C7 example: emergency fund 15000. -/
def fdC7 : FinData := { emptyFinData with emergency_fund := some 15000 }

/-- C7: _simulate_job_loss computes the survival runway as emergency fund
over the projected 30-day monthly expense (0 when that expense is not
positive, including the NaN case), the required reserve as 6 times the
expense, the funding gap as required minus fund without flooring, and risk
"medium" exactly when the unrounded runway reaches 3 months; at fund 15000
and expense 3000 this gives 5.0 months, 18000 required, gap 3000, "medium". -/
theorem simulate_job_loss_spec :
    (∀ (fd : FinData) (m : ℚ),
      (simulate_job_loss fd (some m)).survival_months =
        round1 (if 0 < m then fd.emergency_fund.getD 15000 / m else 0) ∧
      (simulate_job_loss fd (some m)).required_emergency_fund =
        some (round2 (m * 6)) ∧
      (simulate_job_loss fd (some m)).funding_gap =
        some (round2 (m * 6 - fd.emergency_fund.getD 15000)) ∧
      ((simulate_job_loss fd (some m)).risk_level = "medium" ↔
        3 ≤ (if 0 < m then fd.emergency_fund.getD 15000 / m else 0)) ∧
      ((simulate_job_loss fd (some m)).risk_level = "high" ↔
        ¬ 3 ≤ (if 0 < m then fd.emergency_fund.getD 15000 / m else 0))) ∧
    (∀ fd : FinData,
      (simulate_job_loss fd none).survival_months = 0 ∧
      (simulate_job_loss fd none).risk_level = "high") ∧
    ((simulate_job_loss fdC7 (some 3000)).survival_months = 5 ∧
     (simulate_job_loss fdC7 (some 3000)).required_emergency_fund = some 18000 ∧
     (simulate_job_loss fdC7 (some 3000)).funding_gap = some 3000 ∧
     (simulate_job_loss fdC7 (some 3000)).risk_level = "medium") := by
  refine ⟨?_, ?_, ?_⟩
  · intro fd m
    unfold simulate_job_loss
    dsimp only
    exact ⟨rfl, rfl, rfl, (riskIte _).1, (riskIte _).2⟩
  · intro fd
    unfold simulate_job_loss
    dsimp only
    refine ⟨by decide, ?_⟩
    rw [if_neg (by decide)]
  · decide

/-! ## Claim C8 -/

/-- Seven rows with distinct dates: the C8 counterexample input. -/
def rowsC8 : List (ℤ × ℚ) := (List.range 7).map (fun i => ((i : ℤ), 1))

/-- C8 counterexample: with exactly 7 samples the overall trend is still
"insufficient_data" (the 30-sample rolling mean is NaN), refuting the claim
that insufficient data is reported exactly when fewer than 7 samples exist. -/
theorem overall_trend_seven_samples_insufficient :
    7 ≤ rowsC8.length ∧
    (calculate_overall_trend (fun _ => 0) rowsC8).trend = "insufficient_data" := by
  decide

theorem insertRow_length (x : ℤ × ℚ) (l : List (ℤ × ℚ)) :
    (insertRow x l).length = l.length + 1 := by
  induction l with
  | nil => rfl
  | cons y ys ih =>
    unfold insertRow
    split_ifs <;> simp [ih]

theorem sortByDate_length (rows : List (ℤ × ℚ)) :
    (sortByDate rows).length = rows.length := by
  suffices h : ∀ acc : List (ℤ × ℚ),
      (rows.foldl (fun a x => insertRow x a) acc).length = acc.length + rows.length by
    unfold sortByDate
    simpa using h []
  induction rows with
  | nil => intro acc; simp
  | cons r rs ih =>
    intro acc
    simp only [List.foldl_cons, List.length_cons]
    rw [ih (insertRow r acc), insertRow_length]
    omega

theorem calculate_overall_trend_eq (fsqrt : ℚ → ℚ) (rows : List (ℤ × ℚ)) :
    calculate_overall_trend fsqrt rows =
      (if rows.length < 30 then { trend := "insufficient_data", stats := none }
       else
        { trend :=
            if meanLast 30 ((sortByDate rows).map (fun r => r.2)) * (11/10) <
                meanLast 7 ((sortByDate rows).map (fun r => r.2)) then "accelerating"
            else if meanLast 7 ((sortByDate rows).map (fun r => r.2)) <
                meanLast 30 ((sortByDate rows).map (fun r => r.2)) * (9/10) then "decelerating"
            else "stable"
          stats := some (meanLast 7 ((sortByDate rows).map (fun r => r.2)),
                         meanLast 30 ((sortByDate rows).map (fun r => r.2)),
                         sampleStd fsqrt ((sortByDate rows).map (fun r => r.2))) }) := by
  have hlen : ((sortByDate rows).map (fun r => r.2)).length = rows.length := by
    rw [List.length_map, sortByDate_length]
  unfold calculate_overall_trend rollingLast
  dsimp only
  rw [hlen]
  by_cases h7 : rows.length < 7
  · rw [if_pos h7, if_pos (show rows.length < 30 by omega)]
  · rw [if_neg h7]
    by_cases h30 : 30 ≤ rows.length
    · rw [if_pos (show 7 ≤ rows.length by omega), if_pos h30,
        if_neg (show ¬ rows.length < 30 by omega)]
    · rw [if_pos (show 7 ≤ rows.length by omega), if_neg h30,
        if_pos (show rows.length < 30 by omega)]

/-- C8 amended: the overall trend reports "insufficient_data" exactly when
fewer than 30 samples are available (below 7 by the explicit guard, from 7
to 29 through the NaN 30-sample rolling mean); with at least 30 samples it
compares the latest 7-sample moving average against 1.1 and 0.9 times the
latest 30-sample moving average; the category trend reports
"insufficient_data" whenever a category has fewer than 3 transactions. -/
theorem overall_trend_amended (fsqrt : ℚ → ℚ) (rows : List (ℤ × ℚ)) :
    ((calculate_overall_trend fsqrt rows).trend = "insufficient_data" ↔
      rows.length < 30) ∧
    (30 ≤ rows.length →
      (calculate_overall_trend fsqrt rows).trend =
        (if meanLast 30 ((sortByDate rows).map (fun r => r.2)) * (11/10) <
            meanLast 7 ((sortByDate rows).map (fun r => r.2)) then "accelerating"
         else if meanLast 7 ((sortByDate rows).map (fun r => r.2)) <
            meanLast 30 ((sortByDate rows).map (fun r => r.2)) * (9/10) then "decelerating"
         else "stable")) ∧
    (∀ cat_rows : List (ℤ × ℚ), cat_rows.length < 3 →
      calculate_category_trend cat_rows = "insufficient_data") := by
  refine ⟨?_, ?_, ?_⟩
  · rw [calculate_overall_trend_eq]
    by_cases h30 : rows.length < 30
    · rw [if_pos h30]
      exact ⟨fun _ => h30, fun _ => rfl⟩
    · rw [if_neg h30]
      constructor
      · intro heq
        exfalso
        dsimp only at heq
        split_ifs at heq <;> exact absurd heq (by decide)
      · intro hc
        exact absurd hc h30
  · intro h30
    rw [calculate_overall_trend_eq, if_neg (show ¬ rows.length < 30 by omega)]
  · intro cat_rows hlt
    unfold calculate_category_trend
    rw [if_pos hlt]

/-- Thirty rows with distinct dates used by the C8 witness. -/
def rowsC8w : List (ℤ × ℚ) := (List.range 30).map (fun i => ((i : ℤ), 1))

/-- C8 witness: the amended statement applied at 30 samples and at a
2-transaction category. -/
theorem overall_trend_amended_witness :
    (calculate_overall_trend (fun _ => 0) rowsC8w).trend =
      (if meanLast 30 ((sortByDate rowsC8w).map (fun r => r.2)) * (11/10) <
          meanLast 7 ((sortByDate rowsC8w).map (fun r => r.2)) then "accelerating"
       else if meanLast 7 ((sortByDate rowsC8w).map (fun r => r.2)) <
          meanLast 30 ((sortByDate rowsC8w).map (fun r => r.2)) * (9/10) then "decelerating"
       else "stable") ∧
    calculate_category_trend [((0:ℤ), (1:ℚ)), ((1:ℤ), (2:ℚ))] = "insufficient_data" :=
  ⟨(overall_trend_amended (fun _ => 0) rowsC8w).2.1 (by decide),
   (overall_trend_amended (fun _ => 0) rowsC8w).2.2 _ (by decide)⟩

/-! ## Claim C9 -/

theorem ok_bind {α β : Type} (a : α) (f : α → Except String β) :
    (Except.ok a >>= f : Except String β) = f a := rfl

theorem pure_bind_ex {α β : Type} (a : α) (f : α → Except String β) :
    ((pure a : Except String α) >>= f) = f a := rfl

theorem exceptMapList_cons {α β : Type} (f : α → Except String β) (x : α)
    (xs : List α) :
    exceptMapList f (x :: xs) =
      (f x >>= fun y => exceptMapList f xs >>= fun ys => pure (y :: ys)) := rfl

theorem exceptMapList_nil {α β : Type} (f : α → Except String β) :
    exceptMapList f [] = .ok [] := rfl

theorem inv_entry_zero_pv (fpow : ℚ → ℚ → ℚ) (mr infl prob : ℚ) :
    inv_entry fpow 0 mr infl prob 30 = .error "float division by zero" := rfl

theorem inv_entry_pos (fpow : ℚ → ℚ → ℚ) (pv mr infl prob : ℚ)
    (hpv : 0 < pv) (hmr : 0 ≤ mr) (h : ℕ) (hh : 0 < h) :
    ∃ e : String × InvEntry, inv_entry fpow pv mr infl prob h = .ok e ∧
      e.1 = toString h ++ "_days" ∧ e.2.probability = prob := by
  have hv : (0:ℚ) ≤ 1 + mr / 365 * (h:ℚ) :=
    add_nonneg zero_le_one
      (mul_nonneg (div_nonneg hmr (by norm_num)) (Nat.cast_nonneg h))
  have hcond : ¬(pv * (1 + mr / 365 * (h:ℚ)) / pv < 0 ∧ (365 / (h:ℚ)).den ≠ 1) := by
    rw [mul_comm, mul_div_assoc, div_self hpv.ne', mul_one]
    exact fun hx => absurd hx.1 (not_lt.mpr hv)
  have heq : inv_entry fpow pv mr infl prob h =
      .ok (toString h ++ "_days",
        InvEntry.mk (round2 (pv * (1 + mr / 365 * (h:ℚ))))
          (round2 (pv * (1 + mr / 365 * (h:ℚ)) - pv))
          (round2 ((fpow (pv * (1 + mr / 365 * (h:ℚ)) / pv) (365 / (h:ℚ)) - 1) * 100))
          (round2 (pv * (1 + mr / 365 * (h:ℚ)) - pv - pv * (infl / 365) * (h:ℚ)))
          prob) := by
    unfold inv_entry pyDiv pyPow
    dsimp only
    rw [if_pos hh, if_neg hpv.ne']
    simp only [ok_bind]
    rw [if_neg hcond]
    simp only [ok_bind, pure_bind_ex]
    rfl
  exact ⟨_, heq, rfl, rfl⟩

theorem exceptMapList_horizons_ok (fpow : ℚ → ℚ → ℚ) (pv mr infl prob : ℚ)
    (hpv : 0 < pv) (hmr : 0 ≤ mr) :
    ∃ rows, exceptMapList (inv_entry fpow pv mr infl prob) horizons = .ok rows ∧
      rows.map (fun r => r.1) = ["30_days", "90_days", "180_days", "365_days"] ∧
      ∀ r ∈ rows, r.2.probability = prob := by
  obtain ⟨e1, h1, k1, p1⟩ := inv_entry_pos fpow pv mr infl prob hpv hmr 30 (by norm_num)
  obtain ⟨e2, h2, k2, p2⟩ := inv_entry_pos fpow pv mr infl prob hpv hmr 90 (by norm_num)
  obtain ⟨e3, h3, k3, p3⟩ := inv_entry_pos fpow pv mr infl prob hpv hmr 180 (by norm_num)
  obtain ⟨e4, h4, k4, p4⟩ := inv_entry_pos fpow pv mr infl prob hpv hmr 365 (by norm_num)
  refine ⟨[e1, e2, e3, e4], ?_, ?_, ?_⟩
  · simp only [horizons, exceptMapList_cons, exceptMapList_nil,
      h1, h2, h3, h4, ok_bind, pure_bind_ex]
    rfl
  · simp only [List.map_cons, List.map_nil, k1, k2, k3, k4]
    rfl
  · intro r hr
    simp only [List.mem_cons, List.not_mem_nil, or_false] at hr
    rcases hr with rfl | rfl | rfl | rfl
    · exact p1
    · exact p2
    · exact p3
    · exact p4

/-- C9: when the portfolio total value is 0 the investment-return projection
raises ZeroDivisionError in the annualized-return division and returns the
error record; for a positive value it returns the full 3-scenario by
4-horizon table in which every record carries its scenario probability
weight (0.6 baseline, 0.2 optimistic, 0.2 pessimistic). -/
theorem project_investment_returns_spec (fpow : ℚ → ℚ → ℚ) (fd : FinData) :
    (fd.portfolio_value.getD 50000 = 0 →
      project_investment_returns fpow fd =
        .error "Error projecting investment returns: float division by zero") ∧
    (0 < fd.portfolio_value.getD 50000 →
      ∃ t, project_investment_returns fpow fd = .ok t ∧
        t.map (fun p => p.1) = ["baseline", "optimistic", "pessimistic"] ∧
        ∀ p ∈ t,
          p.2.map (fun r => r.1) = ["30_days", "90_days", "180_days", "365_days"] ∧
          ∀ r ∈ p.2, r.2.probability = (if p.1 = "baseline" then 6/10 else 2/10)) := by
  constructor
  · intro h0
    unfold project_investment_returns
    rw [h0]
    rfl
  · intro hpv
    obtain ⟨rows_b, hb, kb, pb⟩ :=
      exceptMapList_horizons_ok fpow _ (8/100) (25/1000) (6/10) hpv (by norm_num)
    obtain ⟨rows_o, ho, ko, po⟩ :=
      exceptMapList_horizons_ok fpow _ (12/100) (2/100) (2/10) hpv (by norm_num)
    obtain ⟨rows_p, hq, kq, pq⟩ :=
      exceptMapList_horizons_ok fpow _ (4/100) (4/100) (2/10) hpv (by norm_num)
    refine ⟨[("baseline", rows_b), ("optimistic", rows_o), ("pessimistic", rows_p)],
      ?_, rfl, ?_⟩
    · unfold project_investment_returns
      simp only [economic_scenarios, exceptMapList_cons, exceptMapList_nil,
        hb, ho, hq, ok_bind, pure_bind_ex]
      rfl
    · intro p hp'
      simp only [List.mem_cons, List.not_mem_nil, or_false] at hp'
      rcases hp' with rfl | rfl | rfl
      · refine ⟨kb, fun r hr => ?_⟩
        dsimp only
        rw [pb r hr, if_pos rfl]
      · refine ⟨ko, fun r hr => ?_⟩
        dsimp only
        rw [po r hr, if_neg (by decide)]
      · refine ⟨kq, fun r hr => ?_⟩
        dsimp only
        rw [pq r hr, if_neg (by decide)]

/-- Snapshot whose portfolio total value is present and 0. -/
def fdZeroPv : FinData := { emptyFinData with portfolio_value := some 0 }

/-- C9 witness: the error case at a zero portfolio value and the success
case at the 50000 default, both with a concrete power function. -/
theorem project_investment_returns_spec_witness :
    (fdZeroPv.portfolio_value.getD 50000 = 0 ∧
     project_investment_returns (fun _ _ => 1) fdZeroPv =
       .error "Error projecting investment returns: float division by zero") ∧
    (0 < emptyFinData.portfolio_value.getD 50000 ∧
     ∃ t, project_investment_returns (fun _ _ => 1) emptyFinData = .ok t ∧
       t.map (fun p => p.1) = ["baseline", "optimistic", "pessimistic"] ∧
       ∀ p ∈ t,
         p.2.map (fun r => r.1) = ["30_days", "90_days", "180_days", "365_days"] ∧
         ∀ r ∈ p.2, r.2.probability = (if p.1 = "baseline" then 6/10 else 2/10)) :=
  ⟨⟨rfl, (project_investment_returns_spec (fun _ _ => 1) fdZeroPv).1 rfl⟩,
   ⟨by decide, (project_investment_returns_spec (fun _ _ => 1) emptyFinData).2 (by decide)⟩⟩

/-! ## Claim C10 -/

/-- The high-priority risk_management recommendation that the market-crash
scenario always produces: its action is the first mitigation strategy of the
crash scenario. -/
def crashRecC10 : Rec :=
  { category := "risk_management", priority := "high"
    title := "Mitigate Market Crash Risk"
    descr := "High risk level identified for market_crash"
    action := "Maintain emergency fund", timeline := "immediate" }

/-- C10: the market-crash stress scenario carries the constant risk level
"high", so for every snapshot, expense history and invocation time the
recommendation synthesis emits the high-priority market-crash
risk_management item whose action is "Maintain emergency fund", and the
recommendation list of the generated forecast is never empty. -/
theorem market_crash_rec_always (fsqrt : ℚ → ℚ) (fpow : ℚ → ℚ → ℚ) (fd : FinData)
    (expenses : List Expense) (now : ℤ) :
    (generate_forecast fsqrt fpow fd expenses now).risk_scenarios.market_crash.risk_level
      = "high" ∧
    crashRecC10 ∈ (generate_forecast fsqrt fpow fd expenses now).recommendations ∧
    (generate_forecast fsqrt fpow fd expenses now).recommendations ≠ [] := by
  have hmem : crashRecC10 ∈ (generate_forecast fsqrt fpow fd expenses now).recommendations := by
    show crashRecC10 ∈
      cashFlowRecs (forecast_cash_flow fd expenses now) ++
      netWorthRecs (project_net_worth fd (forecast_cash_flow fd expenses now)) ++
      riskRecs (generate_risk_scenarios fd (forecast_expenses fsqrt expenses))
    refine List.mem_append_right _ ?_
    refine List.mem_filterMap.mpr ⟨_, List.Mem.head _, ?_⟩
    dsimp only [generate_risk_scenarios, simulate_market_crash]
    decide
  exact ⟨rfl, hmem, List.ne_nil_of_mem hmem⟩
